import Mathlib

/-!
Shallow embedding of `src/jira-mcp.ts` (a Jira MCP command layer).

JavaScript values are modelled by `JValue` (with an explicit `undefined`
constructor, since the code distinguishes `undefined` from `null`).
`process.env` is modelled as a function `Nat → Env` indexed by the number
of prior `getJiraConfig` reads in the invocation, so that the code's
re-reading of configuration (e.g. when building a browse URL after a
successful create) is observable.  Network I/O is modelled by an oracle
`net : Request → HttpResponse`; every dispatched request is recorded in a
state `St`, which lets theorems speak about "performs zero network calls".
Exceptions are modelled with `Except`.
-/

/-- Model of a JavaScript runtime value (JSON values plus `undefined`). -/
inductive JValue where
  | undefined
  | null
  | bool (b : Bool)
  | num (n : Int)
  | str (s : String)
  | arr (xs : List JValue)
  | obj (fields : List (String × JValue))

/-- JavaScript truthiness of a value. -/
def JValue.truthy : JValue → Bool
  | .undefined => false
  | .null => false
  | .bool b => b
  | .num n => decide (n ≠ 0)
  | .str s => decide (s ≠ "")
  | .arr _ => true
  | .obj _ => true

/-- Property access `v.k`.  On an object it looks the key up; on any
non-object receiver it yields `undefined`.  (JavaScript would throw a
TypeError for a `null`/`undefined` receiver; the theorems below only
apply this to object receivers, where the semantics agree.) -/
def JValue.get (v : JValue) (k : String) : JValue :=
  match v with
  | .obj fs => match fs.lookup k with
    | some x => x
    | none => .undefined
  | _ => .undefined

/-- Optional-chained property access `v?.k`: `undefined` when the
receiver is nullish, plain access otherwise. -/
def JValue.getOpt (v : JValue) (k : String) : JValue :=
  match v with
  | .undefined => .undefined
  | .null => .undefined
  | v => v.get k

/-- JavaScript `a || b`. -/
def jsOr (a b : JValue) : JValue :=
  if a.truthy then a else b

/-- A JS string variable that may be `undefined` (TypeScript `string`
fields that are absent at runtime), as a JS value. -/
def jval : Option String → JValue
  | some s => .str s
  | none => .undefined

/-- Template-literal interpolation of a possibly-undefined string. -/
def tmpl : Option String → String
  | some s => s
  | none => "undefined"

/-- JS truthiness of a possibly-undefined string (`!x` checks in the
command validations): false for `undefined` and for the empty string. -/
def truthyO : Option String → Bool
  | some s => decide (s ≠ "")
  | none => false

/-- JS truthiness of a possibly-undefined number: false for `undefined`
and for `0`. -/
def truthyNum : Option Int → Bool
  | some n => decide (n ≠ 0)
  | none => false

mutual

/-- JavaScript `String(v)` conversion, as used by template literals. -/
def jsToStr : JValue → String
  | .undefined => "undefined"
  | .null => "null"
  | .bool true => "true"
  | .bool false => "false"
  | .num n => toString n
  | .str s => s
  | .arr xs => String.intercalate "," (jsJoinList xs)
  | .obj _ => "[object Object]"

/-- Element conversion of `Array.prototype.join`: nullish elements
become the empty string. -/
def jsJoinList : List JValue → List String
  | [] => []
  | .undefined :: vs => "" :: jsJoinList vs
  | .null :: vs => "" :: jsJoinList vs
  | v :: vs => jsToStr v :: jsJoinList vs

end

/-- Single element conversion for `Array.prototype.join`. -/
def joinElem : JValue → String
  | .undefined => ""
  | .null => ""
  | v => jsToStr v

/-- Lowercase hexadecimal digit. -/
def hexDigitChar (n : Nat) : Char :=
  if n < 10 then Char.ofNat (48 + n) else Char.ofNat (87 + n)

/-- JSON string escaping as performed by `JSON.stringify`. -/
def escChar (c : Char) : String :=
  if c = '"' then "\\\""
  else if c = '\\' then "\\\\"
  else if c = '\n' then "\\n"
  else if c = '\r' then "\\r"
  else if c = '\t' then "\\t"
  else if c.toNat = 8 then "\\b"
  else if c.toNat = 12 then "\\f"
  else if c.toNat < 32 then "\\u00" ++ String.mk [hexDigitChar (c.toNat / 16), hexDigitChar (c.toNat % 16)]
  else String.singleton c

/-- A JSON-quoted string literal. -/
def jsonQuote (s : String) : String :=
  "\"" ++ String.join (s.data.map escChar) ++ "\""

mutual

/-- `JSON.stringify`.  Object entries whose value is `undefined` are
dropped; `undefined` array elements serialize as `null`.  (A top-level
`undefined` never occurs at the call sites in this code.) -/
def stringify : JValue → String
  | .undefined => "null"
  | .null => "null"
  | .bool true => "true"
  | .bool false => "false"
  | .num n => toString n
  | .str s => jsonQuote s
  | .arr xs => "[" ++ String.intercalate "," (stringifyArr xs) ++ "]"
  | .obj fs => "\x7b" ++ String.intercalate "," (stringifyObj fs) ++ "\x7d"

/-- Array elements under `JSON.stringify`. -/
def stringifyArr : List JValue → List String
  | [] => []
  | .undefined :: vs => "null" :: stringifyArr vs
  | v :: vs => stringify v :: stringifyArr vs

/-- Object entries under `JSON.stringify`. -/
def stringifyObj : List (String × JValue) → List String
  | [] => []
  | (_, .undefined) :: fs => stringifyObj fs
  | (k, v) :: fs => (jsonQuote k ++ ":" ++ stringify v) :: stringifyObj fs

end

/-- UTF-8 encoding of one character (`Buffer.from` on a JS string). -/
def charBytes (c : Char) : List Nat :=
  let n := c.toNat
  if n < 128 then [n]
  else if n < 2048 then [192 + n / 64, 128 + n % 64]
  else if n < 65536 then [224 + n / 4096, 128 + (n / 64) % 64, 128 + n % 64]
  else [240 + n / 262144, 128 + (n / 4096) % 64, 128 + (n / 64) % 64, 128 + n % 64]

/-- UTF-8 encoding of a character list. -/
def utf8Bytes : List Char → List Nat
  | [] => []
  | c :: cs => charBytes c ++ utf8Bytes cs

/-- The base64 alphabet. -/
def b64Char (n : Nat) : Char :=
  (("ABCDEFGHIJKLMNOPQRSTUVWXYZabcdefghijklmnopqrstuvwxyz0123456789+/").data.getD n 'A')

/-- Standard base64 of a byte list (`Buffer.prototype.toString('base64')`). -/
def base64 : List Nat → String
  | a :: b :: c :: rest =>
    String.mk [b64Char (a / 4), b64Char ((a % 4) * 16 + b / 16),
               b64Char ((b % 16) * 4 + c / 64), b64Char (c % 64)] ++ base64 rest
  | [a, b] =>
    String.mk [b64Char (a / 4), b64Char ((a % 4) * 16 + b / 16),
               b64Char ((b % 16) * 4), '=']
  | [a] =>
    String.mk [b64Char (a / 4), b64Char ((a % 4) * 16), '=', '=']
  | [] => ""

/-- `Buffer.from(s).toString('base64')`. -/
def base64S (s : String) : String :=
  base64 (utf8Bytes s.data)

/-- The three Jira environment variables (`process.env` entries). -/
structure Env where
  jiraBaseURL : Option String
  jiraEmail : Option String
  jiraApiToken : Option String

/-- A successfully resolved configuration. -/
structure Config where
  baseURL : String
  email : String
  token : String

/-- The configuration error message thrown by `getJiraConfig`. -/
def configMissingMsg : String :=
  "Missing required Jira environment variables. Please set JIRA_BASE_URL, JIRA_EMAIL, and JIRA_API_TOKEN."

/-- `getJiraConfig` on a given environment snapshot: each variable
defaults to the empty string (`|| ''`), and an error is thrown when any
of the three is falsy. -/
def configOf (e : Env) : Except String Config :=
  let b := e.jiraBaseURL.getD ""
  let m := e.jiraEmail.getD ""
  let t := e.jiraApiToken.getD ""
  if b = "" ∨ m = "" ∨ t = "" then .error configMissingMsg
  else .ok ⟨b, m, t⟩

/-- A candidate request body (`RequestInit.body`): string, binary
(Buffer / Uint8Array), or any other JS value. -/
inductive JsBody where
  | str (s : String)
  | buffer (bytes : List Nat)
  | uint8 (bytes : List Nat)
  | other (v : JValue)

/-- An outgoing HTTP request as handed to `fetch`. -/
structure Request where
  url : String
  method : Option String
  headers : List (String × String)
  body : Option JsBody

/-- An HTTP response from the remote API. -/
structure HttpResponse where
  ok : Bool
  status : Nat
  text : String
  json : JValue

/-- The options argument of `jiraRequest` (`RequestInit`). -/
structure ReqOptions where
  method : Option String := none
  headers : List (String × String) := []
  body : Option JsBody := none

/-- The external world: the environment as seen by the n-th config read
of the invocation, and the network oracle. -/
structure World where
  env : Nat → Env
  net : Request → HttpResponse

/-- Invocation state: number of config reads performed so far, and the
network requests dispatched so far, in dispatch order. -/
structure St where
  envReads : Nat
  calls : List Request

/-- The state at the start of a command invocation. -/
def St.init : St := ⟨0, []⟩

/-- `getJiraConfig()` as a stateful action: reads the current
environment snapshot and advances the read counter. -/
def getJiraConfigM (w : World) (s : St) : Except String Config × St :=
  (configOf (w.env s.envReads), ⟨s.envReads + 1, s.calls⟩)

/-- The body guard in `jiraRequest`: only string / Buffer / Uint8Array
bodies (and nothing nullish) are kept. -/
def safeBody : Option JsBody → Option JsBody
  | some (.str s) => some (.str s)
  | some (.buffer b) => some (.buffer b)
  | some (.uint8 b) => some (.uint8 b)
  | _ => none

/-- `Object.assign({}, base, extra)` on header maps: keys of `base` in
order with values overridden by `extra`, then new keys of `extra`. -/
def mergeHeaders (base extra : List (String × String)) : List (String × String) :=
  base.map (fun kv => (kv.1, (extra.lookup kv.1).getD kv.2)) ++
    extra.filter (fun kv => !(base.any (fun b => b.1 == kv.1)))

/-- The `fetch` argument assembled by `jiraRequest`: url, method (only
when truthy), merged headers with Basic auth, and the guarded body. -/
def buildRequest (cfg : Config) (path : String) (opts : ReqOptions) : Request :=
  { url := cfg.baseURL ++ path
    method := if truthyO opts.method then opts.method else none
    headers := mergeHeaders
      [("Authorization", "Basic " ++ base64S (cfg.email ++ ":" ++ cfg.token)),
       ("Accept", "application/json")] opts.headers
    body := safeBody opts.body }

/-- `jiraRequest(path, options)`: resolve config, dispatch the request,
throw on a non-ok status, otherwise return the parsed JSON body. -/
def jiraRequest (w : World) (path : String) (opts : ReqOptions) (s : St) :
    Except String JValue × St :=
  match getJiraConfigM w s with
  | (.error m, s1) => (.error m, s1)
  | (.ok cfg, s1) =>
    let req := buildRequest cfg path opts
    let res := w.net req
    ((if res.ok then .ok res.json
      else .error ("Jira API error: " ++ toString res.status ++ " " ++ res.text)),
     ⟨s1.envReads, s1.calls ++ [req]⟩)

/-- Input of `jiraApi.createIssue` (and of the `createIssue` command). -/
structure CreateIssueInput where
  projectKey : Option String
  summary : Option String
  description : Option String
  issueType : Option String
  assignee : Option String
  priority : Option String
  epicLink : Option String
  parent : Option String

namespace jiraApi

/-- `jiraApi.getIssue(issueKey)`. -/
def getIssue (w : World) (issueKey : Option String) (s : St) :
    Except String JValue × St :=
  jiraRequest w ("/rest/api/3/issue/" ++ tmpl issueKey) {} s

/-- The `fields` object assembled by `jiraApi.createIssue`. -/
def createFields (i : CreateIssueInput) : List (String × JValue) :=
  [("project", .obj [("key", jval i.projectKey)]),
   ("summary", jval i.summary),
   ("issuetype", .obj [("name", jval i.issueType)])] ++
  (if truthyO i.description then [("description", jval i.description)] else []) ++
  (if truthyO i.assignee then [("assignee", .obj [("name", jval i.assignee)])] else []) ++
  (if truthyO i.priority then [("priority", .obj [("name", jval i.priority)])] else []) ++
  (if truthyO i.epicLink then [("customfield_10008", jval i.epicLink)] else []) ++
  (if truthyO i.parent then [("parent", .obj [("key", jval i.parent)])] else [])

/-- `jiraApi.createIssue(input)`. -/
def createIssue (w : World) (i : CreateIssueInput) (s : St) :
    Except String JValue × St :=
  jiraRequest w "/rest/api/3/issue"
    { method := some "POST"
      headers := [("Content-Type", "application/json")]
      body := some (.str (stringify (.obj [("fields", .obj (createFields i))]))) } s

/-- The worklog body assembled by `jiraApi.addWorklog`: `timeSpent`
always, `comment` only when truthy. -/
def worklogBody (timeSpent comment : Option String) : JValue :=
  .obj ([("timeSpent", jval timeSpent)] ++
    (if truthyO comment then [("comment", jval comment)] else []))

/-- `jiraApi.addWorklog(issueKey, timeSpent, comment?)`. -/
def addWorklog (w : World) (issueKey timeSpent comment : Option String) (s : St) :
    Except String JValue × St :=
  jiraRequest w ("/rest/api/3/issue/" ++ tmpl issueKey ++ "/worklog")
    { method := some "POST"
      headers := [("Content-Type", "application/json")]
      body := some (.str (stringify (worklogBody timeSpent comment))) } s

/-- `jiraApi.updateIssue(issueIdOrKey, fields)`. -/
def updateIssue (w : World) (issueIdOrKey : Option String) (fields : JValue) (s : St) :
    Except String JValue × St :=
  jiraRequest w ("/rest/api/3/issue/" ++ tmpl issueIdOrKey)
    { method := some "PUT"
      headers := [("Content-Type", "application/json")]
      body := some (.str (stringify (.obj [("fields", fields)]))) } s

/-- `jiraApi.deleteIssue(issueIdOrKey)`. -/
def deleteIssue (w : World) (issueIdOrKey : Option String) (s : St) :
    Except String JValue × St :=
  jiraRequest w ("/rest/api/3/issue/" ++ tmpl issueIdOrKey)
    { method := some "DELETE" } s

/-- The search body assembled by `jiraApi.listIssues`: `jql` and
`maxResults` only when truthy. -/
def searchBody (jql : Option String) (maxResults : Option Int) : JValue :=
  .obj ((if truthyO jql then [("jql", jval jql)] else []) ++
    (if truthyNum maxResults then
      [("maxResults", match maxResults with | some n => .num n | none => .undefined)] else []))

/-- `jiraApi.listIssues(jql?, maxResults?)`. -/
def listIssues (w : World) (jql : Option String) (maxResults : Option Int) (s : St) :
    Except String JValue × St :=
  jiraRequest w "/rest/api/3/search"
    { method := some "POST"
      headers := [("Content-Type", "application/json")]
      body := some (.str (stringify (searchBody jql maxResults))) } s

end jiraApi

/-- Input of the `getIssueDetails` (and `getTask`) command. -/
structure GetIssueDetailsInput where
  issueIdOrKey : Option String

/-- Input of the `transitionIssue` command. -/
structure TransitionInput where
  issueIdOrKey : Option String
  transitionId : Option String

/-- One element of the `issues` array of `batchCreateIssues`. -/
structure BatchItem where
  summary : Option String
  description : Option String
  issueType : Option String
  assignee : Option String

/-- The runtime value of the `issues` field: either an actual array of
items, or some other (non-array) JS value. -/
inductive IssuesField where
  | arr (items : List BatchItem)
  | nonArr (v : JValue)

/-- Input of the `batchCreateIssues` command. -/
structure BatchInput where
  projectKey : Option String
  issues : Option IssuesField

/-- `Array.isArray(input.issues)`. -/
def IssuesField.isArray : Option IssuesField → Bool
  | some (.arr _) => true
  | _ => false

/-- Input of the `logWork` command. -/
structure LogWorkInput where
  issueKey : Option String
  timeSpent : Option String
  comment : Option String

/-- Input of the `createTask` command. -/
structure CreateTaskInput where
  summary : Option String
  description : Option String
  projectKey : Option String
  issueType : Option String

/-- Input of the `updateTask` command. -/
structure UpdateTaskInput where
  issueIdOrKey : Option String
  fields : JValue

/-- Input of the `listTasks` command. -/
structure ListTasksInput where
  jql : Option String
  maxResults : Option Int

/-- The uniform `{error: true, message}` object produced by the catch
blocks of the commands. -/
def errObj (m : String) : JValue :=
  .obj [("error", .bool true), ("message", .str m)]

/-- Flattening of one description content block:
`c.content?.map((t) => t.text).join(' ')`, already converted for the
outer join (a nullish chain result joins as the empty string).  A truthy
non-array `content` would make JavaScript throw; that case is
unreachable under the shapes the theorems consider. -/
def blockPiece (c : JValue) : String :=
  match c.get "content" with
  | .undefined => ""
  | .null => ""
  | .arr ts => String.intercalate " " (ts.map (fun t => joinElem (t.get "text")))
  | _ => ""

/-- Flattening of the whole description content:
`content.map((c) => ...).join('\n')`.  A non-array receiver would make
JavaScript throw; unreachable under the shapes the theorems consider. -/
def flattenContent : JValue → String
  | .arr blocks => String.intercalate "\n" (blocks.map blockPiece)
  | _ => ""

/-- Projection of one subtask reference:
`{ key: s.key, summary: s.fields?.summary }`. -/
def subtaskProj (s : JValue) : JValue :=
  .obj [("key", s.get "key"), ("summary", (s.get "fields").getOpt "summary")]

/-- The subtask list: `(fields.subtasks || []).map(...)`.  A truthy
non-array value would make JavaScript throw; unreachable under the
shapes the theorems consider. -/
def subtasksOf (v : JValue) : JValue :=
  match jsOr v (.arr []) with
  | .arr ss => .arr (ss.map subtaskProj)
  | _ => .arr []

/-- The projection of a fetched issue performed in the success branch
of `getIssueDetails.run`. -/
def projectIssue (data : JValue) : JValue :=
  let fields := jsOr (data.get "fields") (.obj [])
  .obj [
    ("key", data.get "key"),
    ("summary", fields.get "summary"),
    ("status", (fields.get "status").getOpt "name"),
    ("assignee", jsOr ((fields.get "assignee").getOpt "displayName") .null),
    ("description",
      if ((fields.get "description").getOpt "content").truthy then
        .str (flattenContent ((fields.get "description").get "content"))
      else .null),
    ("epicLink", jsOr (fields.get "customfield_10008") .null),
    ("subtasks", subtasksOf (fields.get "subtasks"))
  ]

/-- `commands.getIssueDetails.run`: fetch the issue and project a subset
of its fields; any thrown failure is normalized to `{error, message}`. -/
def getIssueDetails_run (w : World) (input : GetIssueDetailsInput) (s : St) :
    JValue × St :=
  match jiraApi.getIssue w input.issueIdOrKey s with
  | (.error m, s1) => (errObj m, s1)
  | (.ok data, s1) => (projectIssue data, s1)

/-- `commands.createIssue.run`: validate the three required fields, then
delegate to the client and build the browse URL from a fresh config
read; failures are normalized to `{error, message}`. -/
def createIssue_run (w : World) (input : CreateIssueInput) (s : St) :
    JValue × St :=
  if !truthyO input.projectKey || !truthyO input.summary || !truthyO input.issueType then
    (.obj [("error", .bool true),
           ("message", .str "Missing required fields: projectKey, summary, or issueType")], s)
  else
    match jiraApi.createIssue w input s with
    | (.error m, s1) => (errObj m, s1)
    | (.ok issue, s1) =>
      match getJiraConfigM w s1 with
      | (.error m, s2) => (errObj m, s2)
      | (.ok cfg, s2) =>
        (.obj [("key", issue.get "key"),
               ("url", .str (cfg.baseURL ++ "/browse/" ++ jsToStr (issue.get "key")))], s2)

/-- `commands.transitionIssue.run`: a placeholder that performs no work
and always reports success. -/
def transitionIssue_run (_w : World) (input : TransitionInput) (s : St) :
    JValue × St :=
  (.obj [("success", .bool true),
         ("message", .str ("Transitioned issue " ++ tmpl input.issueIdOrKey ++
           " to transition " ++ tmpl input.transitionId ++ " (placeholder)"))], s)

/-- The `CreateIssueInput` assembled for one batch item. -/
def batchToCreate (pk : Option String) (it : BatchItem) : CreateIssueInput :=
  { projectKey := pk, summary := it.summary, description := it.description
    issueType := it.issueType, assignee := it.assignee
    priority := none, epicLink := none, parent := none }

/-- Processing of one item of `batchCreateIssues`: the per-item
`try/catch` around the create call and the browse-URL construction. -/
def batchItemRun (w : World) (pk : Option String) (it : BatchItem) (s : St) :
    JValue × St :=
  match jiraApi.createIssue w (batchToCreate pk it) s with
  | (.error m, s1) =>
    (.obj [("error", .bool true), ("message", .str m), ("summary", jval it.summary)], s1)
  | (.ok created, s1) =>
    match getJiraConfigM w s1 with
    | (.error m, s2) =>
      (.obj [("error", .bool true), ("message", .str m), ("summary", jval it.summary)], s2)
    | (.ok cfg, s2) =>
      (.obj [("key", created.get "key"),
             ("url", .str (cfg.baseURL ++ "/browse/" ++ jsToStr (created.get "key"))),
             ("success", .bool true)], s2)

/-- Sequential threading of the item runs.  (The source dispatches the
items with `Promise.all`; their effects are linearized here in input
order, which is one of the admissible interleavings.) -/
def runItems (w : World) (pk : Option String) : List BatchItem → St → List JValue × St
  | [], s => ([], s)
  | it :: rest, s =>
    let (v, s1) := batchItemRun w pk it s
    let (vs, s2) := runItems w pk rest s1
    (v :: vs, s2)

/-- `commands.batchCreateIssues.run`: validate, then create every item
with an isolated per-item catch, returning the ordered outcome list. -/
def batchCreateIssues_run (w : World) (input : BatchInput) (s : St) :
    JValue × St :=
  if !truthyO input.projectKey || !IssuesField.isArray input.issues ||
      (match input.issues with | some (.arr items) => decide (items.length = 0) | _ => true) then
    (.obj [("error", .bool true), ("message", .str "Missing projectKey or issues array is empty")], s)
  else
    match input.issues with
    | some (.arr items) =>
      let (outs, s1) := runItems w input.projectKey items s
      (.arr outs, s1)
    | _ => (.obj [("error", .bool true), ("message", .str "Missing projectKey or issues array is empty")], s)

/-- `commands.logWork.run`: validate the two required fields, delegate
to the worklog client call, and normalize failures. -/
def logWork_run (w : World) (input : LogWorkInput) (s : St) : JValue × St :=
  if !truthyO input.issueKey || !truthyO input.timeSpent then
    (.obj [("error", .bool true), ("message", .str "Missing required fields: issueKey or timeSpent")], s)
  else
    match jiraApi.addWorklog w input.issueKey input.timeSpent input.comment s with
    | (.error m, s1) => (errObj m, s1)
    | (.ok _, s1) =>
      (.obj [("success", .bool true),
             ("message", .str ("Worklog added to " ++ tmpl input.issueKey))], s1)

/-- `commands.createTask.run`: a thin delegation to `createIssue.run`. -/
def createTask_run (w : World) (input : CreateTaskInput) (s : St) : JValue × St :=
  createIssue_run w
    { projectKey := input.projectKey, summary := input.summary
      description := input.description, issueType := input.issueType
      assignee := none, priority := none, epicLink := none, parent := none } s

/-- `commands.getTask.run`: a thin delegation to `getIssueDetails.run`. -/
def getTask_run (w : World) (input : GetIssueDetailsInput) (s : St) : JValue × St :=
  getIssueDetails_run w input s

/-- `commands.updateTask.run`: no validation; delegates to the client
update and normalizes failures. -/
def updateTask_run (w : World) (input : UpdateTaskInput) (s : St) : JValue × St :=
  match jiraApi.updateIssue w input.issueIdOrKey input.fields s with
  | (.error m, s1) => (errObj m, s1)
  | (.ok _, s1) =>
    (.obj [("success", .bool true), ("message", .str "Task updated"),
           ("input", .obj [("issueIdOrKey", jval input.issueIdOrKey), ("fields", input.fields)])], s1)

/-- `commands.deleteTask.run`: no validation; delegates to the client
delete and normalizes failures. -/
def deleteTask_run (w : World) (input : GetIssueDetailsInput) (s : St) : JValue × St :=
  match jiraApi.deleteIssue w input.issueIdOrKey s with
  | (.error m, s1) => (errObj m, s1)
  | (.ok _, s1) =>
    (.obj [("success", .bool true), ("message", .str "Task deleted"),
           ("input", .obj [("issueIdOrKey", jval input.issueIdOrKey)])], s1)

/-- `commands.listTasks.run`: delegates to the client search and
normalizes failures. -/
def listTasks_run (w : World) (input : ListTasksInput) (s : St) : JValue × St :=
  match jiraApi.listIssues w input.jql input.maxResults s with
  | (.error m, s1) => (errObj m, s1)
  | (.ok result, s1) =>
    (.obj [("success", .bool true), ("issues", result.get "issues")], s1)

/-- An invocation during which the environment does not change between
config reads. -/
def constEnv (w : World) : Prop := ∀ n, w.env n = w.env 0

/-- `jiraRequest` when the config read fails: the error propagates and
no request is dispatched. -/
theorem jiraRequest_config_error (w : World) (p : String) (o : ReqOptions) (s : St) (m : String)
    (h : configOf (w.env s.envReads) = .error m) :
    jiraRequest w p o s = (.error m, ⟨s.envReads + 1, s.calls⟩) := by
  simp [jiraRequest, getJiraConfigM, h]

/-- `jiraRequest` when the config read succeeds: exactly one request is
dispatched and the response decides the outcome. -/
theorem jiraRequest_config_ok (w : World) (p : String) (o : ReqOptions) (s : St) (cfg : Config)
    (h : configOf (w.env s.envReads) = .ok cfg) :
    jiraRequest w p o s =
      ((if (w.net (buildRequest cfg p o)).ok then .ok (w.net (buildRequest cfg p o)).json
        else .error ("Jira API error: " ++ toString (w.net (buildRequest cfg p o)).status ++ " " ++
          (w.net (buildRequest cfg p o)).text)),
       ⟨s.envReads + 1, s.calls ++ [buildRequest cfg p o]⟩) := by
  simp [jiraRequest, getJiraConfigM, h]

/-- Under a constant environment, the value computed by `jiraRequest`
does not depend on the starting state. -/
theorem jiraRequest_fst_const (w : World) (h : constEnv w) (p : String) (o : ReqOptions) (s : St) :
    (jiraRequest w p o s).1 = (jiraRequest w p o St.init).1 := by
  rcases hc : configOf (w.env 0) with m | cfg
  · rw [jiraRequest_config_error w p o s m (by rw [h]; exact hc),
        jiraRequest_config_error w p o St.init m (by rw [h]; exact hc)]
  · rw [jiraRequest_config_ok w p o s cfg (by rw [h]; exact hc),
        jiraRequest_config_ok w p o St.init cfg (by rw [h]; exact hc)]

/-- Under a constant environment, the value computed by
`jiraApi.createIssue` does not depend on the starting state. -/
theorem createIssue_api_fst_const (w : World) (h : constEnv w) (i : CreateIssueInput) (s : St) :
    (jiraApi.createIssue w i s).1 = (jiraApi.createIssue w i St.init).1 :=
  jiraRequest_fst_const w h _ _ s

/-- The outcome of one `batchCreateIssues` item, viewed from a fresh
state. -/
def itemOutcome (w : World) (pk : Option String) (it : BatchItem) : JValue :=
  (batchItemRun w pk it St.init).1

/-- Under a constant environment, an item's outcome does not depend on
the state it starts in: one item's result is a function of the item
alone (plus the fixed world and project key). -/
theorem batchItemRun_fst_const (w : World) (h : constEnv w) (pk : Option String)
    (it : BatchItem) (s : St) :
    (batchItemRun w pk it s).1 = itemOutcome w pk it := by
  unfold itemOutcome batchItemRun
  have h1 := createIssue_api_fst_const w h (batchToCreate pk it) s
  rcases e1 : jiraApi.createIssue w (batchToCreate pk it) s with ⟨v, s1⟩
  rcases e2 : jiraApi.createIssue w (batchToCreate pk it) St.init with ⟨v', s1'⟩
  rw [e1, e2] at h1
  simp at h1
  subst h1
  cases v with
  | error m => simp
  | ok created =>
    simp [getJiraConfigM, h s1.envReads, h s1'.envReads]
    cases configOf (w.env 0) <;> simp

/-- Under a constant environment, the batch loop returns exactly the
input-ordered list of per-item outcomes. -/
theorem runItems_fst_const (w : World) (h : constEnv w) (pk : Option String)
    (items : List BatchItem) (s : St) :
    (runItems w pk items s).1 = items.map (itemOutcome w pk) := by
  induction items generalizing s with
  | nil => simp [runItems]
  | cons it rest ih =>
    rcases e1 : batchItemRun w pk it s with ⟨v, s1⟩
    have hv := batchItemRun_fst_const w h pk it s
    rw [e1] at hv
    simp only [runItems, e1, List.map]
    rcases e2 : runItems w pk rest s1 with ⟨vs, s2⟩
    have hvs := ih s1
    rw [e2] at hvs
    simp only [e2]
    simp only [Prod.fst] at hv hvs ⊢
    simp [hv, hvs]

/-- Characterization of the body guard of `jiraRequest`: a body is kept
exactly when it is a string or a binary payload. -/
theorem safeBody_some_iff (ob : Option JsBody) (b : JsBody) :
    safeBody ob = some b ↔ (ob = some b ∧
      ((∃ x, b = JsBody.str x) ∨ (∃ bs, b = JsBody.buffer bs) ∨ (∃ bs, b = JsBody.uint8 bs))) := by
  cases ob with
  | none => simp [safeBody]
  | some v => cases v <;> simp [safeBody] <;> aesop

/-- A fully populated environment, constant across reads. -/
def envFull : Env := ⟨some "https://example.atlassian.net", some "user@example.com", some "tok123"⟩

/-- The configuration resolved from `envFull`. -/
def cfgFull : Config := ⟨"https://example.atlassian.net", "user@example.com", "tok123"⟩

/-- A remote issue payload with key `PROJ-1`. -/
def issueJson : JValue := .obj [("key", .str "PROJ-1"), ("fields", .obj [("summary", .str "Test Ticket")])]

/-- A world with full configuration whose network always answers 200
with `issueJson`. -/
def wOk : World := ⟨fun _ => envFull, fun _ => ⟨true, 200, "", issueJson⟩⟩

/-- C1 (as stated) is false: `getIssueDetails` is a command other than
`transitionIssue`, yet invoking its `run` with the required
`issueIdOrKey` missing (under a complete configuration) dispatches one
network call — to `.../issue/undefined` — and returns the projected
success object, not `{error: true}`. -/
theorem c1_counterexample :
    ((getIssueDetails_run wOk ⟨none⟩ St.init).2.calls).length = 1 ∧
    ((getIssueDetails_run wOk ⟨none⟩ St.init).2.calls.map (fun r => r.url)) =
      ["https://example.atlassian.net/rest/api/3/issue/undefined"] ∧
    ((getIssueDetails_run wOk ⟨none⟩ St.init).1).get "error" = .undefined :=
  ⟨rfl, rfl, rfl⟩

/-- C1 (amended): for the commands that do validate — `createIssue`,
`createTask`, `batchCreateIssues`, and `logWork` — invoking `run` with
any declared required field missing returns `{error: true, message}`
and performs zero network calls (the state is returned untouched). -/
theorem c1_theorem (w : World) :
    (∀ i : CreateIssueInput, (i.projectKey = none ∨ i.summary = none ∨ i.issueType = none) →
      createIssue_run w i St.init = (.obj [("error", .bool true),
        ("message", .str "Missing required fields: projectKey, summary, or issueType")], St.init)) ∧
    (∀ i : CreateTaskInput, (i.summary = none ∨ i.projectKey = none ∨ i.issueType = none) →
      createTask_run w i St.init = (.obj [("error", .bool true),
        ("message", .str "Missing required fields: projectKey, summary, or issueType")], St.init)) ∧
    (∀ i : BatchInput, (i.projectKey = none ∨ i.issues = none) →
      batchCreateIssues_run w i St.init = (.obj [("error", .bool true),
        ("message", .str "Missing projectKey or issues array is empty")], St.init)) ∧
    (∀ i : LogWorkInput, (i.issueKey = none ∨ i.timeSpent = none) →
      logWork_run w i St.init = (.obj [("error", .bool true),
        ("message", .str "Missing required fields: issueKey or timeSpent")], St.init)) := by
  refine ⟨fun i h => ?_, fun i h => ?_, fun i h => ?_, fun i h => ?_⟩
  · rcases h with h | h | h <;> simp [createIssue_run, h, truthyO]
  · rcases h with h | h | h <;> simp [createTask_run, createIssue_run, h, truthyO]
  · rcases h with h | h <;> simp [batchCreateIssues_run, h, truthyO, IssuesField.isArray]
  · rcases h with h | h <;> simp [logWork_run, h, truthyO]

/-- Witness for the amended C1, at concrete inputs with one required
field missing in each command. -/
theorem c1_witness :
    createIssue_run wOk ⟨none, some "Test Ticket", none, some "Task", none, none, none, none⟩ St.init =
      (.obj [("error", .bool true),
        ("message", .str "Missing required fields: projectKey, summary, or issueType")], St.init) ∧
    createTask_run wOk ⟨none, none, some "PROJ", some "Task"⟩ St.init =
      (.obj [("error", .bool true),
        ("message", .str "Missing required fields: projectKey, summary, or issueType")], St.init) ∧
    batchCreateIssues_run wOk ⟨some "PROJ", none⟩ St.init =
      (.obj [("error", .bool true),
        ("message", .str "Missing projectKey or issues array is empty")], St.init) ∧
    logWork_run wOk ⟨some "PROJ-123", none, none⟩ St.init =
      (.obj [("error", .bool true),
        ("message", .str "Missing required fields: issueKey or timeSpent")], St.init) :=
  ⟨(c1_theorem wOk).1 _ (Or.inl rfl),
   (c1_theorem wOk).2.1 _ (Or.inl rfl),
   (c1_theorem wOk).2.2.1 _ (Or.inr rfl),
   (c1_theorem wOk).2.2.2 _ (Or.inr rfl)⟩

/-- C5: `transitionIssue.run` touches neither the configuration nor the
network (the state comes back unchanged), never fails, and returns
`{success: true, message}` where the message mentions both the given
issue key and the given transition id. -/
theorem c5_theorem (w : World) (k t : String) (s : St) :
    ∃ m, transitionIssue_run w ⟨some k, some t⟩ s =
        (.obj [("success", .bool true), ("message", .str m)], s) ∧
      (∃ p q, m = p ++ k ++ q) ∧ (∃ p q, m = p ++ t ++ q) := by
  refine ⟨"Transitioned issue " ++ k ++ " to transition " ++ t ++ " (placeholder)", ?_,
    ⟨"Transitioned issue ", " to transition " ++ t ++ " (placeholder)", ?_⟩,
    ⟨"Transitioned issue " ++ k ++ " to transition ", " (placeholder)", ?_⟩⟩
  · simp [transitionIssue_run, tmpl]
  · simp [String.append_assoc]
  · simp [String.append_assoc]

/-- C6: with any of the three configuration variables absent, each of
the six API client operations fails with the configuration error and
dispatches no network request. -/
theorem c6_theorem (w : World)
    (h : (w.env 0).jiraBaseURL = none ∨ (w.env 0).jiraEmail = none ∨ (w.env 0).jiraApiToken = none) :
    (∀ k, jiraApi.getIssue w k St.init = (.error configMissingMsg, ⟨1, []⟩)) ∧
    (∀ i, jiraApi.createIssue w i St.init = (.error configMissingMsg, ⟨1, []⟩)) ∧
    (∀ k t c, jiraApi.addWorklog w k t c St.init = (.error configMissingMsg, ⟨1, []⟩)) ∧
    (∀ k f, jiraApi.updateIssue w k f St.init = (.error configMissingMsg, ⟨1, []⟩)) ∧
    (∀ k, jiraApi.deleteIssue w k St.init = (.error configMissingMsg, ⟨1, []⟩)) ∧
    (∀ j m, jiraApi.listIssues w j m St.init = (.error configMissingMsg, ⟨1, []⟩)) := by
  have hc : configOf (w.env St.init.envReads) = .error configMissingMsg := by
    rcases h with h | h | h <;> simp [configOf, St.init, h]
  exact ⟨fun k => jiraRequest_config_error w _ _ _ _ hc,
    fun i => jiraRequest_config_error w _ _ _ _ hc,
    fun k t c => jiraRequest_config_error w _ _ _ _ hc,
    fun k f => jiraRequest_config_error w _ _ _ _ hc,
    fun k => jiraRequest_config_error w _ _ _ _ hc,
    fun j m => jiraRequest_config_error w _ _ _ _ hc⟩

/-- A world whose environment lacks the base URL. -/
def wNoBase : World := ⟨fun _ => ⟨none, some "user@example.com", some "tok123"⟩, fun _ => ⟨true, 200, "", issueJson⟩⟩

/-- Witness for C6 at a concrete environment missing the base URL. -/
theorem c6_witness :
    jiraApi.getIssue wNoBase (some "PROJ-123") St.init = (.error configMissingMsg, ⟨1, []⟩) ∧
    jiraApi.deleteIssue wNoBase (some "PROJ-123") St.init = (.error configMissingMsg, ⟨1, []⟩) :=
  ⟨(c6_theorem wNoBase (Or.inl rfl)).1 (some "PROJ-123"),
   (c6_theorem wNoBase (Or.inl rfl)).2.2.2.2.1 (some "PROJ-123")⟩

/-- C8: `batchCreateIssues.run` with a missing project key, a missing
`issues` field, a non-array `issues` value, or an empty `issues` array
returns the single `{error: true, message}` object and performs no
network call (the state is returned untouched). -/
theorem c8_theorem (w : World) (i : BatchInput)
    (h : i.projectKey = none ∨ i.issues = none ∨ (∃ v, i.issues = some (.nonArr v)) ∨
      i.issues = some (.arr [])) :
    batchCreateIssues_run w i St.init = (.obj [("error", .bool true),
      ("message", .str "Missing projectKey or issues array is empty")], St.init) := by
  rcases h with h | h | ⟨v, h⟩ | h <;>
    simp [batchCreateIssues_run, h, truthyO, IssuesField.isArray]

/-- Witness for C8 at a concrete empty `issues` array. -/
theorem c8_witness :
    batchCreateIssues_run wOk ⟨some "PROJ", some (.arr [])⟩ St.init =
      (.obj [("error", .bool true),
        ("message", .str "Missing projectKey or issues array is empty")], St.init) :=
  c8_theorem wOk _ (Or.inr (Or.inr (Or.inr rfl)))

/-- C9: whenever the configuration resolves, `jiraRequest` dispatches
exactly one request; its body equals the supplied body exactly when that
body is a string or binary payload, and any other (non-nullish) body is
silently dropped — the request still goes out, bodyless, instead of
failing. -/
theorem c9_theorem (w : World) (path : String) (opts : ReqOptions) (s : St) (cfg : Config)
    (hc : configOf (w.env s.envReads) = .ok cfg) :
    ∃ req, (jiraRequest w path opts s).2.calls = s.calls ++ [req] ∧
      (∀ b, req.body = some b ↔ (opts.body = some b ∧
        ((∃ x, b = JsBody.str x) ∨ (∃ bs, b = JsBody.buffer bs) ∨ (∃ bs, b = JsBody.uint8 bs)))) ∧
      (∀ v, opts.body = some (JsBody.other v) → req.body = none) := by
  refine ⟨buildRequest cfg path opts, ?_, ?_, ?_⟩
  · rw [jiraRequest_config_ok w path opts s cfg hc]
  · intro b
    exact safeBody_some_iff opts.body b
  · intro v hv
    show safeBody opts.body = none
    rw [hv]
    rfl

/-- Witness for C9: a concrete object body is dropped while the request
is still dispatched, and a concrete string body is kept. -/
theorem c9_witness :
    (configOf (wOk.env St.init.envReads) = .ok cfgFull) ∧
    (∃ req, (jiraRequest wOk "/rest/api/3/issue" ⟨some "POST", [], some (.other (.obj []))⟩ St.init).2.calls =
        St.init.calls ++ [req] ∧
      (∀ b, req.body = some b ↔ (some (JsBody.other (.obj [])) = some b ∧
        ((∃ x, b = JsBody.str x) ∨ (∃ bs, b = JsBody.buffer bs) ∨ (∃ bs, b = JsBody.uint8 bs)))) ∧
      (∀ v, some (JsBody.other (.obj [])) = some (JsBody.other v) → req.body = none)) ∧
    ((jiraRequest wOk "/rest/api/3/issue" ⟨some "POST", [], some (.other (.obj []))⟩ St.init).2.calls.map
      (fun r => r.body)) = [none] :=
  ⟨rfl, c9_theorem wOk "/rest/api/3/issue" ⟨some "POST", [], some (.other (.obj []))⟩ St.init cfgFull rfl, rfl⟩

/-- C10: the required-field checks use truthiness, so an empty string
behaves like an absent field: `createIssue`, `logWork`, and
`batchCreateIssues` reject it before any network call. -/
theorem c10_theorem (w : World) :
    (∀ i : CreateIssueInput, (i.projectKey = some "" ∨ i.summary = some "" ∨ i.issueType = some "") →
      createIssue_run w i St.init = (.obj [("error", .bool true),
        ("message", .str "Missing required fields: projectKey, summary, or issueType")], St.init)) ∧
    (∀ i : LogWorkInput, (i.issueKey = some "" ∨ i.timeSpent = some "") →
      logWork_run w i St.init = (.obj [("error", .bool true),
        ("message", .str "Missing required fields: issueKey or timeSpent")], St.init)) ∧
    (∀ i : BatchInput, i.projectKey = some "" →
      batchCreateIssues_run w i St.init = (.obj [("error", .bool true),
        ("message", .str "Missing projectKey or issues array is empty")], St.init)) := by
  refine ⟨fun i h => ?_, fun i h => ?_, fun i h => ?_⟩
  · rcases h with h | h | h <;> simp [createIssue_run, h, truthyO]
  · rcases h with h | h <;> simp [logWork_run, h, truthyO]
  · simp [batchCreateIssues_run, h, truthyO]

/-- Witness for C10 at concrete empty-string inputs. -/
theorem c10_witness :
    createIssue_run wOk ⟨some "", some "Test Ticket", none, some "Task", none, none, none, none⟩ St.init =
      (.obj [("error", .bool true),
        ("message", .str "Missing required fields: projectKey, summary, or issueType")], St.init) ∧
    logWork_run wOk ⟨some "PROJ-123", some "", none⟩ St.init =
      (.obj [("error", .bool true),
        ("message", .str "Missing required fields: issueKey or timeSpent")], St.init) ∧
    batchCreateIssues_run wOk ⟨some "", some (.arr [⟨some "Task 1", none, some "Task", none⟩])⟩ St.init =
      (.obj [("error", .bool true),
        ("message", .str "Missing projectKey or issues array is empty")], St.init) :=
  ⟨(c10_theorem wOk).1 _ (Or.inl rfl),
   (c10_theorem wOk).2.1 _ (Or.inr rfl),
   (c10_theorem wOk).2.2 _ rfl⟩

/-- A rich-text text node carrying the text `t`. -/
def encText (t : String) : JValue := .obj [("text", .str t)]

/-- A rich-text content block: an ordered sequence of text nodes. -/
def encBlock (b : List String) : JValue := .obj [("content", .arr (b.map encText))]

/-- A rich-document description body: an ordered sequence of blocks. -/
def encBlocks (bs : List (List String)) : JValue := .arr (bs.map encBlock)

/-- One encoded block flattens to its text nodes joined by a space. -/
theorem blockPiece_enc (b : List String) :
    blockPiece (encBlock b) = String.intercalate " " b := by
  simp only [blockPiece, encBlock, JValue.get, List.lookup, beq_self_eq_true]
  rw [List.map_map]
  congr 1
  have h : ∀ t : String, joinElem ((encText t).get "text") = t := by
    intro t
    simp [encText, JValue.get, List.lookup, joinElem, jsToStr]
  calc b.map (fun t => joinElem ((encText t).get "text"))
      = b.map id := List.map_congr_left (fun t _ => h t)
    _ = b := List.map_id b

/-- The encoded description flattens to blocks joined by spaces within
a block and newlines between blocks. -/
theorem flatten_encBlocks (bs : List (List String)) :
    flattenContent (encBlocks bs) = String.intercalate "\n" (bs.map (String.intercalate " ")) := by
  simp only [flattenContent, encBlocks]
  rw [List.map_map]
  congr 1
  exact List.map_congr_left (fun b _ => blockPiece_enc b)

/-- An encoded description body is truthy (arrays are truthy). -/
theorem encBlocks_truthy (bs : List (List String)) : (encBlocks bs).truthy = true := rfl

/-- Looking up `description` in the projected issue object. -/
theorem get_descr (a b c d e f g : JValue) :
    (JValue.obj [("key", a), ("summary", b), ("status", c), ("assignee", d),
      ("description", e), ("epicLink", f), ("subtasks", g)]).get "description" = e := by
  simp [JValue.get, List.lookup]

/-- C3: for a fetched issue whose description is a rich document of
content blocks of text nodes, `getIssueDetails` returns as description
the blocks' texts joined by a space within a block and a newline
between blocks; when the description is absent it returns `null`. -/
theorem c3_theorem (w : World) (key : Option String) (data : JValue) (fs : List (String × JValue))
    (cfg : Config) (hc : configOf (w.env 0) = .ok cfg)
    (hnet : ∀ r, w.net r = ⟨true, 200, "", data⟩)
    (hfields : data.get "fields" = .obj fs) :
    (∀ bs : List (List String),
      (JValue.obj fs).get "description" = .obj [("content", encBlocks bs)] →
      ((getIssueDetails_run w ⟨key⟩ St.init).1).get "description" =
        .str (String.intercalate "\n" (bs.map (String.intercalate " ")))) ∧
    ((JValue.obj fs).get "description" = .undefined →
      ((getIssueDetails_run w ⟨key⟩ St.init).1).get "description" = .null) := by
  have hreq := jiraRequest_config_ok w ("/rest/api/3/issue/" ++ tmpl key) {} St.init cfg hc
  have hrun : (getIssueDetails_run w ⟨key⟩ St.init).1 = projectIssue data := by
    simp only [getIssueDetails_run, jiraApi.getIssue, hreq, hnet]
    simp
  constructor
  · intro bs hdesc
    rw [hrun]
    simp only [projectIssue]
    rw [get_descr, hfields]
    rw [show jsOr (JValue.obj fs) (.obj []) = .obj fs from rfl]
    rw [hdesc]
    rw [show (JValue.obj [("content", encBlocks bs)]).getOpt "content" = encBlocks bs from rfl]
    rw [show (JValue.obj [("content", encBlocks bs)]).get "content" = encBlocks bs from rfl]
    simp only [encBlocks_truthy, if_true, flatten_encBlocks]
  · intro hdesc
    rw [hrun]
    simp only [projectIssue]
    rw [get_descr, hfields]
    rw [show jsOr (JValue.obj fs) (.obj []) = .obj fs from rfl]
    rw [hdesc]
    simp [JValue.getOpt, JValue.truthy]

/-- A fetched issue whose description blocks are `[["a","b"],["c"]]`. -/
def descIssueJson : JValue :=
  .obj [("key", .str "PROJ-9"),
        ("fields", .obj [("summary", .str "S"),
                         ("description", .obj [("content", encBlocks [["a", "b"], ["c"]])])])]

/-- A world that serves `descIssueJson`. -/
def wDesc : World := ⟨fun _ => envFull, fun _ => ⟨true, 200, "", descIssueJson⟩⟩

/-- Witness for C3: description blocks `[["a","b"],["c"]]` flatten to
`"a b\nc"`. -/
theorem c3_witness :
    (configOf (wDesc.env 0) = .ok cfgFull) ∧
    ((getIssueDetails_run wDesc ⟨some "PROJ-9"⟩ St.init).1).get "description" = .str "a b\nc" :=
  ⟨rfl,
   ((c3_theorem wDesc (some "PROJ-9") descIssueJson
      [("summary", .str "S"), ("description", .obj [("content", encBlocks [["a", "b"], ["c"]])])]
      cfgFull rfl (fun _ => rfl) rfl).1 [["a", "b"], ["c"]] rfl).trans rfl⟩

/-- C4: when the three required fields validate, the config resolves for
the request, and the remote create succeeds with key `k`, the command
returns `{key: k, url: baseURL ++ "/browse/" ++ k}` with the base URL
taken from a second, fresh config read; if that second read fails, the
command returns `{error: true, message}` even though the remote create
succeeded. -/
theorem c4_theorem (w : World) (i : CreateIssueInput) (k : String) (data : JValue)
    (hpk : truthyO i.projectKey = true) (hsum : truthyO i.summary = true)
    (hty : truthyO i.issueType = true)
    (cfg0 : Config) (hc0 : configOf (w.env 0) = .ok cfg0)
    (st : Nat) (txt : String) (hnet : ∀ r, w.net r = ⟨true, st, txt, data⟩)
    (hkey : data.get "key" = .str k) :
    (∀ cfg1, configOf (w.env 1) = .ok cfg1 →
      (createIssue_run w i St.init).1 =
        .obj [("key", .str k), ("url", .str (cfg1.baseURL ++ "/browse/" ++ k))]) ∧
    (∀ m, configOf (w.env 1) = .error m →
      (createIssue_run w i St.init).1 = .obj [("error", .bool true), ("message", .str m)]) := by
  have hval : (!truthyO i.projectKey || !truthyO i.summary || !truthyO i.issueType) = false := by
    simp [hpk, hsum, hty]
  constructor
  · intro cfg1 hc1
    simp only [createIssue_run, hval, Bool.false_eq_true, if_false, jiraApi.createIssue]
    rw [jiraRequest_config_ok w _ _ St.init cfg0 hc0]
    rw [hnet]
    simp only [if_true, getJiraConfigM, St.init]
    rw [hc1]
    simp [hkey, jsToStr]
  · intro m hc1
    simp only [createIssue_run, hval, Bool.false_eq_true, if_false, jiraApi.createIssue]
    rw [jiraRequest_config_ok w _ _ St.init cfg0 hc0]
    rw [hnet]
    simp only [if_true, getJiraConfigM, St.init]
    rw [hc1]
    simp [errObj]

/-- A world whose configuration is complete for the first read of an
invocation and gone from the second read on. -/
def wDrop : World :=
  ⟨fun n => if n = 0 then envFull else ⟨none, none, none⟩, fun _ => ⟨true, 200, "", issueJson⟩⟩

/-- Witness for C4: under a stable configuration the concrete create
returns key and browse URL; when the configuration disappears between
the create call and the URL construction, the same successful create
surfaces as a configuration error. -/
theorem c4_witness :
    (truthyO (some "PROJ") = true) ∧ (configOf (wOk.env 0) = .ok cfgFull) ∧
    (createIssue_run wOk ⟨some "PROJ", some "Test Ticket", none, some "Task", none, none, none, none⟩ St.init).1 =
      .obj [("key", .str "PROJ-1"), ("url", .str "https://example.atlassian.net/browse/PROJ-1")] ∧
    (createIssue_run wDrop ⟨some "PROJ", some "Test Ticket", none, some "Task", none, none, none, none⟩ St.init).1 =
      .obj [("error", .bool true), ("message", .str configMissingMsg)] :=
  ⟨rfl, rfl,
   ((c4_theorem wOk ⟨some "PROJ", some "Test Ticket", none, some "Task", none, none, none, none⟩
      "PROJ-1" issueJson rfl rfl rfl cfgFull rfl 200 "" (fun _ => rfl) rfl).1 cfgFull rfl).trans rfl,
   (c4_theorem wDrop ⟨some "PROJ", some "Test Ticket", none, some "Task", none, none, none, none⟩
      "PROJ-1" issueJson rfl rfl rfl cfgFull rfl 200 "" (fun _ => rfl) rfl).2 configMissingMsg rfl⟩

/-- C7 (as stated) is false on one boundary case: the worklog comment is
guarded by truthiness (`if (comment) body.comment = comment`), so a
supplied empty-string comment is dropped.  Concretely, `logWork` with
`comment: ""` sends exactly the same body as with no comment at all —
the JSON text with the single `timeSpent` field — so the body does not
additionally contain a comment field. -/
theorem c7_counterexample :
    ((logWork_run wOk ⟨some "PROJ-123", some "2h", some ""⟩ St.init).2.calls.map (fun r => r.body)) =
      ((logWork_run wOk ⟨some "PROJ-123", some "2h", none⟩ St.init).2.calls.map (fun r => r.body)) ∧
    ((logWork_run wOk ⟨some "PROJ-123", some "2h", some ""⟩ St.init).2.calls.map (fun r => r.body)) =
      [some (.str "\x7b\"timeSpent\":\"2h\"\x7d")] :=
  ⟨rfl, rfl⟩

/-- C7 (amended): with valid issue key and time spent and a resolving
configuration, `logWork` dispatches exactly one worklog request; its
body is the JSON of `{timeSpent}` when no comment (or an empty comment)
is supplied and of `{timeSpent, comment}` when a non-empty comment is
supplied; on a successful response the command returns
`{success: true, message}`. -/
theorem c7_theorem (w : World) (ik ts : String) (c : Option String)
    (hik : ik ≠ "") (hts : ts ≠ "") (cfg : Config) (hc : configOf (w.env 0) = .ok cfg) :
    ∃ req, (logWork_run w ⟨some ik, some ts, c⟩ St.init).2.calls = [req] ∧
      (c = none → req.body = some (.str (stringify (.obj [("timeSpent", .str ts)])))) ∧
      (∀ cc, c = some cc → cc ≠ "" →
        req.body = some (.str (stringify (.obj [("timeSpent", .str ts), ("comment", .str cc)])))) ∧
      (∀ cc, c = some cc → cc = "" →
        req.body = some (.str (stringify (.obj [("timeSpent", .str ts)])))) ∧
      ((w.net req).ok = true → (logWork_run w ⟨some ik, some ts, c⟩ St.init).1 =
        .obj [("success", .bool true), ("message", .str ("Worklog added to " ++ ik))]) := by
  have hval : (!truthyO (some ik) || !truthyO (some ts)) = false := by
    simp [truthyO, hik, hts]
  refine ⟨buildRequest cfg ("/rest/api/3/issue/" ++ tmpl (some ik) ++ "/worklog")
    { method := some "POST", headers := [("Content-Type", "application/json")],
      body := some (.str (stringify (jiraApi.worklogBody (some ts) c))) }, ?_, ?_, ?_, ?_, ?_⟩
  · simp only [logWork_run, hval, Bool.false_eq_true, if_false, jiraApi.addWorklog]
    rw [jiraRequest_config_ok w _ _ St.init cfg hc]
    by_cases hok : (w.net (buildRequest cfg ("/rest/api/3/issue/" ++ tmpl (some ik) ++ "/worklog")
      { method := some "POST", headers := [("Content-Type", "application/json")],
        body := some (.str (stringify (jiraApi.worklogBody (some ts) c))) })).ok = true
    · simp [hok, St.init]
    · simp [Bool.eq_false_iff.mpr hok, St.init]
  · intro hcn
    subst hcn
    simp [buildRequest, safeBody, jiraApi.worklogBody, truthyO, jval]
  · intro cc hcc hne
    subst hcc
    simp [buildRequest, safeBody, jiraApi.worklogBody, truthyO, jval, hne]
  · intro cc hcc he
    subst hcc
    subst he
    simp [buildRequest, safeBody, jiraApi.worklogBody, truthyO, jval]
  · intro hok
    simp only [tmpl] at hok
    simp only [logWork_run, hval, Bool.false_eq_true, if_false, jiraApi.addWorklog, tmpl]
    rw [jiraRequest_config_ok w _ _ St.init cfg hc]
    simp [hok]

/-- Witness for C7 (amended): a concrete worklog call with a non-empty
comment succeeds and sends the two-field body. -/
theorem c7_witness :
    (logWork_run wOk ⟨some "PROJ-123", some "2h", some "Worked on bugfix"⟩ St.init).1 =
      .obj [("success", .bool true), ("message", .str "Worklog added to PROJ-123")] ∧
    ((logWork_run wOk ⟨some "PROJ-123", some "2h", some "Worked on bugfix"⟩ St.init).2.calls.map
      (fun r => r.body)) =
      [some (.str (stringify (.obj [("timeSpent", .str "2h"), ("comment", .str "Worked on bugfix")])))] := by
  obtain ⟨req, hcalls, h1, h2, h3, hsucc⟩ :=
    c7_theorem wOk "PROJ-123" "2h" (some "Worked on bugfix") (by decide) (by decide) cfgFull rfl
  exact ⟨hsucc rfl, rfl⟩

/-- C2: for a non-empty item list (and a valid project key, under a
stable configuration), `batchCreateIssues.run` returns — without ever
throwing — an array of per-item outcomes of the same length and order as
the input, where each position's outcome is a function of that item
alone; a position whose create call fails carries
`{error: true, message, summary}` while a position whose create call
succeeds carries `{key, url, success: true}`. -/
theorem c2_theorem (w : World) (hw : constEnv w) (pk : String) (hpk : pk ≠ "")
    (items : List BatchItem) (hne : items ≠ []) :
    (batchCreateIssues_run w ⟨some pk, some (.arr items)⟩ St.init).1 =
      .arr (items.map (itemOutcome w (some pk))) ∧
    (∀ outs, (batchCreateIssues_run w ⟨some pk, some (.arr items)⟩ St.init).1 = .arr outs →
      outs.length = items.length ∧
      ∀ i (h1 : i < outs.length) (h2 : i < items.length),
        outs.get ⟨i, h1⟩ = itemOutcome w (some pk) (items.get ⟨i, h2⟩)) ∧
    (∀ it m, (jiraApi.createIssue w (batchToCreate (some pk) it) St.init).1 = .error m →
      itemOutcome w (some pk) it =
        .obj [("error", .bool true), ("message", .str m), ("summary", jval it.summary)]) ∧
    (∀ it created cfg, (jiraApi.createIssue w (batchToCreate (some pk) it) St.init).1 = .ok created →
      configOf (w.env 0) = .ok cfg →
      itemOutcome w (some pk) it =
        .obj [("key", created.get "key"),
              ("url", .str (cfg.baseURL ++ "/browse/" ++ jsToStr (created.get "key"))),
              ("success", .bool true)]) := by
  have hlen : decide (items.length = 0) = false := by
    simp [List.length_eq_zero, hne]
  have hmain : (batchCreateIssues_run w ⟨some pk, some (.arr items)⟩ St.init).1 =
      .arr (items.map (itemOutcome w (some pk))) := by
    simp only [batchCreateIssues_run, truthyO, IssuesField.isArray, hlen]
    rcases e : runItems w (some pk) items St.init with ⟨outs, s1⟩
    have h1 := runItems_fst_const w hw (some pk) items St.init
    rw [e] at h1
    simp [hpk, e]
    exact h1
  refine ⟨hmain, ?_, ?_, ?_⟩
  · intro outs houts
    rw [hmain] at houts
    have : outs = items.map (itemOutcome w (some pk)) := by
      cases houts
      rfl
    subst this
    refine ⟨List.length_map _ _, ?_⟩
    intro i h1 h2
    simp [List.get_eq_getElem, List.getElem_map]
  · intro it m hfail
    rcases e : jiraApi.createIssue w (batchToCreate (some pk) it) St.init with ⟨v, s1⟩
    rw [e] at hfail
    simp only at hfail
    subst hfail
    simp [itemOutcome, batchItemRun, e]
  · intro it created cfg hok hcfg
    rcases e : jiraApi.createIssue w (batchToCreate (some pk) it) St.init with ⟨v, s1⟩
    rw [e] at hok
    simp only at hok
    subst hok
    simp [itemOutcome, batchItemRun, e, getJiraConfigM, hw s1.envReads, hcfg]

/-- First batch item: created successfully by the remote. -/
def itemOk : BatchItem := ⟨some "Task 1", none, some "Task", none⟩

/-- Second batch item: rejected by the remote. -/
def itemBad : BatchItem := ⟨some "Task 2", none, some "Bug", none⟩

/-- The serialized create body of `itemBad`, used by the test network
to decide which create call fails. -/
def badBodyStr : String :=
  stringify (.obj [("fields", .obj (jiraApi.createFields (batchToCreate (some "PROJ") itemBad)))])

/-- A world with full configuration whose network rejects exactly the
create request for `itemBad` with a 400 and accepts everything else. -/
def wBatch : World :=
  ⟨fun _ => envFull, fun r =>
    match r.body with
    | some (.str s) =>
      if s = badBodyStr then ⟨false, 400, "Bad Request", .null⟩ else ⟨true, 200, "", issueJson⟩
    | _ => ⟨true, 200, "", issueJson⟩⟩

/-- Witness for C2: two items, one remote failure; the result is the
2-element array in input order with the failing item carrying
`{error, message, summary}` and the other `{key, url, success}`. -/
theorem c2_witness :
    constEnv wBatch ∧ ("PROJ" ≠ "") ∧ ([itemOk, itemBad] ≠ ([] : List BatchItem)) ∧
    (batchCreateIssues_run wBatch ⟨some "PROJ", some (.arr [itemOk, itemBad])⟩ St.init).1 =
      .arr [.obj [("key", .str "PROJ-1"),
                  ("url", .str "https://example.atlassian.net/browse/PROJ-1"),
                  ("success", .bool true)],
            .obj [("error", .bool true),
                  ("message", .str "Jira API error: 400 Bad Request"),
                  ("summary", .str "Task 2")]] :=
  ⟨fun _ => rfl, by decide, by simp,
   ((c2_theorem wBatch (fun _ => rfl) "PROJ" (by decide) [itemOk, itemBad] (by simp)).1).trans rfl⟩
